import Mathlib

set_option maxRecDepth 4000

/-!
Verification of the boom `boom/bootloader.py` BootEntry / BootParams
templating and identity subsystem.

The Python source is shallowly embedded: Python strings become `String`,
`None`-able strings become `Option String`, Python exceptions become
`Except`, machine-width hash arithmetic is `Nat` arithmetic reduced
`% 2 ^ 32`, and the mutable `BootEntry` object is split into its pure
content (`BootEntry`) and its mutable bookkeeping state
(`BootEntryState`).  Recursion between the template engine and the
templated property getters is bounded by an explicit `fuel` parameter
modelling the Python call stack.
-/

namespace Boom

/-! ## Python string primitives

Helpers mirroring the Python string operations used by the source
(`str.split()`, `" ".join`, `in`, `str.replace`, `str.split('=')[0]`,
`str.rstrip`, truthiness).  All are implemented over `List Char` so that
concrete evaluation reduces well in the kernel. -/

/-- Python string truthiness: the empty string is falsy. -/
def pyEmpty (s : String) : Bool :=
  s.data.isEmpty

/-- Python truthiness of a `None`-able string value. -/
def pyTruthyO (o : Option String) : Bool :=
  match o with
  | none => false
  | some s => !pyEmpty s

/-- Python `"%s" % value` applied to a `None`-able string. -/
def pyStrO (o : Option String) : String :=
  match o with
  | none => "None"
  | some s => s

/-- The whitespace characters recognised by Python `str.split()`:
space, tab, newline, carriage return, vertical tab, form feed. -/
def pySpaceChars : List Char :=
  [' ', '\t', '\n', '\r', Char.ofNat 11, Char.ofNat 12]

/-- Is `c` a Python whitespace character? -/
def isPySpace (c : Char) : Bool :=
  pySpaceChars.contains c

/-- Worker for `str.split()`: accumulates the current word (reversed) in
`acc` and splits on runs of whitespace, dropping empty words. -/
def wordsAux : List Char → List Char → List (List Char)
  | [], acc => if acc.isEmpty then [] else [acc.reverse]
  | c :: rest, acc =>
    if isPySpace c then
      if acc.isEmpty then wordsAux rest [] else acc.reverse :: wordsAux rest []
    else
      wordsAux rest (c :: acc)

/-- Python `s.split()` (split on whitespace runs, no empty words). -/
def pySplitWs (s : String) : List String :=
  (wordsAux s.data []).map String.mk

/-- List-level `" ".join`. -/
def joinSpL : List (List Char) → List Char
  | [] => []
  | [w] => w
  | w :: ws => w ++ ' ' :: joinSpL ws

/-- Python `" ".join(ws)`. -/
def pyJoinSp (ws : List String) : String :=
  String.mk (joinSpL (ws.map String.data))

/-- Does `p` begin the list `l`? -/
def isPreL : List Char → List Char → Bool
  | [], _ => true
  | _ :: _, [] => false
  | p :: ps, c :: cs => p == c && isPreL ps cs

/-- Contiguous-sublist test backing Python `sub in s`. -/
def containsL : List Char → List Char → Bool
  | l, pat =>
    if isPreL pat l then true
    else
      match l with
      | [] => false
      | _ :: t => containsL t pat

/-- Python `sub in s` (substring containment). -/
def pyContains (s sub : String) : Bool :=
  containsL s.data sub.data

/-- Worker for `str.replace`, with fuel bounded by the input length
(each step either consumes the matched pattern or one character). -/
def replaceAux (pat rep : List Char) : Nat → List Char → List Char
  | _, [] => []
  | 0, l => l
  | fuel + 1, c :: t =>
    if isPreL pat (c :: t) then rep ++ replaceAux pat rep fuel ((c :: t).drop pat.length)
    else c :: replaceAux pat rep fuel t

/-- Python `s.replace(pat, rep)`.  The source never calls `replace` with
an empty pattern, so that case is left as the identity. -/
def pyReplace (s pat rep : String) : String :=
  if pat.data.isEmpty then s
  else String.mk (replaceAux pat.data rep.data s.data.length s.data)

/-- Python `opt.split('=')[0]`: the portion before the first `'='`. -/
def optName (o : String) : String :=
  String.mk (o.data.takeWhile (fun c => c != '='))

/-- The `"<name>="` wildcard delete spec built by the source from a
token: `"%s=" % opt.split('=')[0]`. -/
def wildcardOf (o : String) : String :=
  String.mk (o.data.takeWhile (fun c => c != '=') ++ ['='])

/-- Python `s.rstrip("\n")`: strip trailing newline characters. -/
def rstripNl (s : String) : String :=
  String.mk (s.data.reverse.dropWhile (fun c => c == '\n')).reverse

/-- Does the string end with the character `c`? -/
def lastCharIs (s : String) (c : Char) : Bool :=
  s.data.getLast? == some c

/-! ## SHA-1 (FIPS 180), as used by Python `hashlib.sha1(...).hexdigest()`

Implemented over `Nat` with explicit reduction `% 2 ^ 32`. -/

/-- Rotate a 32-bit word left by `n` bits. -/
def rotl32 (n x : Nat) : Nat :=
  ((x <<< n) ||| (x >>> (32 - n))) % 4294967296

/-- The SHA-1 round function for round `i`. -/
def sha1f (i b c d : Nat) : Nat :=
  if i < 20 then (b &&& c) ||| ((b ^^^ 4294967295) &&& d)
  else if i < 40 then b ^^^ c ^^^ d
  else if i < 60 then (b &&& c) ||| (b &&& d) ||| (c &&& d)
  else b ^^^ c ^^^ d

/-- The SHA-1 round constant for round `i`. -/
def sha1k (i : Nat) : Nat :=
  if i < 20 then 0x5A827999
  else if i < 40 then 0x6ED9EBA1
  else if i < 60 then 0x8F1BBCDC
  else 0xCA62C1D6

/-- Message-schedule extension: `rl` holds the schedule so far, most
recent word first; `k` words remain to be generated. -/
def extendAux : Nat → List Nat → List Nat
  | 0, rl => rl.reverse
  | k + 1, rl =>
    extendAux k
      (rotl32 1 (rl.getD 2 0 ^^^ rl.getD 7 0 ^^^ rl.getD 13 0 ^^^ rl.getD 15 0) :: rl)

/-- Extend a 16-word chunk to the 80-word SHA-1 message schedule. -/
def extendWords (ws16 : List Nat) : List Nat :=
  extendAux 64 ws16.reverse

/-- The 80 SHA-1 rounds, consuming the message schedule. -/
def sha1Rounds (i : Nat) (ws : List Nat) (a b c d e : Nat) :
    Nat × Nat × Nat × Nat × Nat :=
  match ws with
  | [] => (a, b, c, d, e)
  | w :: ws =>
    sha1Rounds (i + 1) ws
      ((rotl32 5 a + sha1f i b c d + e + sha1k i + w) % 4294967296)
      a (rotl32 30 b) c d

/-- Process one 64-byte chunk, updating the five-word state. -/
def processChunk (h : Nat × Nat × Nat × Nat × Nat) (ws16 : List Nat) :
    Nat × Nat × Nat × Nat × Nat :=
  let w80 := extendWords ws16
  let t := sha1Rounds 0 w80 h.1 h.2.1 h.2.2.1 h.2.2.2.1 h.2.2.2.2
  ((h.1 + t.1) % 4294967296,
   (h.2.1 + t.2.1) % 4294967296,
   (h.2.2.1 + t.2.2.1) % 4294967296,
   (h.2.2.2.1 + t.2.2.2.1) % 4294967296,
   (h.2.2.2.2 + t.2.2.2.2) % 4294967296)

/-- Process `n` chunks of 16 words each. -/
def sha1ProcessN : Nat → (Nat × Nat × Nat × Nat × Nat) → List Nat →
    Nat × Nat × Nat × Nat × Nat
  | 0, h, _ => h
  | n + 1, h, ws => sha1ProcessN n (processChunk h (ws.take 16)) (ws.drop 16)

/-- Big-endian byte decomposition of `n` into `k` bytes. -/
def natToBE : Nat → Nat → List Nat
  | 0, _ => []
  | k + 1, n => natToBE k (n / 256) ++ [n % 256]

/-- Pack a byte list into big-endian 32-bit words. -/
def toWords : List Nat → List Nat
  | b0 :: b1 :: b2 :: b3 :: rest =>
    (b0 * 16777216 + b1 * 65536 + b2 * 256 + b3) :: toWords rest
  | _ => []

/-- The five-word SHA-1 digest of a byte list. -/
def sha1Digest (msg : List Nat) : List Nat :=
  let padded := msg ++ 128 :: List.replicate ((119 - msg.length % 64) % 64) 0 ++
    natToBE 8 (8 * msg.length)
  let ws := toWords padded
  let t := sha1ProcessN (ws.length / 16)
    (0x67452301, 0xEFCDAB89, 0x98BADCFE, 0x10325476, 0xC3D2E1F0) ws
  [t.1, t.2.1, t.2.2.1, t.2.2.2.1, t.2.2.2.2]

/-- The lowercase hexadecimal digit for `n < 16` (codepoint 48 is
`'0'`, 97 is `'a'`). -/
def hexChar (n : Nat) : Char :=
  if n < 10 then Char.ofNat (48 + n) else Char.ofNat (87 + n)

/-- The sixteen lowercase hexadecimal digits `0`-`9`, `a`-`f`. -/
def hexDigits : List Char :=
  (List.range 16).map hexChar

/-- Fixed-width lowercase hexadecimal rendering of `n`. -/
def toHexFixed : Nat → Nat → List Char
  | 0, _ => []
  | d + 1, n => toHexFixed d (n / 16) ++ [hexChar (n % 16)]

/-- Python `hashlib.sha1(msg).hexdigest()` on a byte list. -/
def sha1Hex (msg : List Nat) : String :=
  String.mk (((sha1Digest msg).map (toHexFixed 8)).flatten)

/-- UTF-8 encoding of a single character. -/
def utf8Bytes (c : Char) : List Nat :=
  let n := c.toNat
  if n < 128 then [n]
  else if n < 2048 then [192 ||| (n >>> 6), 128 ||| (n &&& 63)]
  else if n < 65536 then
    [224 ||| (n >>> 12), 128 ||| ((n >>> 6) &&& 63), 128 ||| (n &&& 63)]
  else
    [240 ||| (n >>> 18), 128 ||| ((n >>> 12) &&& 63),
     128 ||| ((n >>> 6) &&& 63), 128 ||| (n &&& 63)]

/-- Python `s.encode('utf-8')` as a byte list. -/
def utf8Encode (s : String) : List Nat :=
  (s.data.map utf8Bytes).flatten

/-! ## Module constants (`boom/bootloader.py`) -/

/-- Python exception kinds raised by the embedded code paths. -/
inductive PyErr where
  | valueError (msg : String)
  | keyError (msg : String)
  | typeError (msg : String)
  | attributeError (msg : String)
  | osError (msg : String)
deriving DecidableEq

/-- Source `BOOM_ENTRY_TITLE`. -/
def BOOM_ENTRY_TITLE : String := "BOOM_ENTRY_TITLE"

/-- Source `BOOM_ENTRY_VERSION`. -/
def BOOM_ENTRY_VERSION : String := "BOOM_ENTRY_VERSION"

/-- Source `BOOM_ENTRY_MACHINE_ID`. -/
def BOOM_ENTRY_MACHINE_ID : String := "BOOM_ENTRY_MACHINE_ID"

/-- Source `BOOM_ENTRY_LINUX`. -/
def BOOM_ENTRY_LINUX : String := "BOOM_ENTRY_LINUX"

/-- Source `BOOM_ENTRY_INITRD`. -/
def BOOM_ENTRY_INITRD : String := "BOOM_ENTRY_INITRD"

/-- Source `BOOM_ENTRY_EFI`. -/
def BOOM_ENTRY_EFI : String := "BOOM_ENTRY_EFI"

/-- Source `BOOM_ENTRY_OPTIONS`. -/
def BOOM_ENTRY_OPTIONS : String := "BOOM_ENTRY_OPTIONS"

/-- Source `BOOM_ENTRY_DEVICETREE`. -/
def BOOM_ENTRY_DEVICETREE : String := "BOOM_ENTRY_DEVICETREE"

/-- Source `BOOM_ENTRY_BOOT_ID`. -/
def BOOM_ENTRY_BOOT_ID : String := "BOOM_ENTRY_BOOT_ID"

/-- Source `ENTRY_KEYS`: the fixed priority order of all possible entry keys. -/
def ENTRY_KEYS : List String :=
  [BOOM_ENTRY_TITLE, BOOM_ENTRY_MACHINE_ID, BOOM_ENTRY_VERSION,
   BOOM_ENTRY_LINUX, BOOM_ENTRY_EFI, BOOM_ENTRY_INITRD,
   BOOM_ENTRY_OPTIONS, BOOM_ENTRY_DEVICETREE]

/-- Source `KEY_MAP`: Boom entry key names to BLS attribute names. -/
def keyAttr (k : String) : String :=
  if k = BOOM_ENTRY_TITLE then "title"
  else if k = BOOM_ENTRY_VERSION then "version"
  else if k = BOOM_ENTRY_MACHINE_ID then "machine_id"
  else if k = BOOM_ENTRY_LINUX then "linux"
  else if k = BOOM_ENTRY_INITRD then "initrd"
  else if k = BOOM_ENTRY_EFI then "efi"
  else if k = BOOM_ENTRY_OPTIONS then "options"
  else if k = BOOM_ENTRY_DEVICETREE then "devicetree"
  else ""

/-- Source `_transform_key`: swap `'_'`/`'-'` in a key name. -/
def transformKey (k : String) : String :=
  if pyContains k "_" then pyReplace k "_" "-"
  else if pyContains k "-" then pyReplace k "-" "_"
  else k

/-- Source `DEV_PATTERN % lv`: the root device path derived from an LVM2 name. -/
def devPattern (lv : String) : String :=
  "/dev/" ++ lv

/-! ## Format key names

Modelled from the spec: the `FMT_*` key-name constants are imported by
the source from `boom.osprofile`, which is not part of the analysed
sources.  The names are those listed in §4.2 of the spec and in the
`_apply_format` docstring (`%\x7bversion\x7d`, `%\x7blvm_root_lv\x7d`,
`%\x7bbtrfs_subvolume\x7d`, `%\x7broot_device\x7d`, `%\x7broot_opts\x7d`,
os name / short name / version / version id keys); the exact spelling of
the remaining keys is irrelevant to the claims, which only require the
key names to be pairwise distinct. -/

/-- Source `FMT_VERSION`. -/
def FMT_VERSION : String := "version"

/-- Source `FMT_LVM_ROOT_LV`. -/
def FMT_LVM_ROOT_LV : String := "lvm_root_lv"

/-- Source `FMT_LVM_ROOT_OPTS`. -/
def FMT_LVM_ROOT_OPTS : String := "lvm_root_opts"

/-- Source `FMT_BTRFS_ROOT_OPTS`. -/
def FMT_BTRFS_ROOT_OPTS : String := "btrfs_root_opts"

/-- Source `FMT_BTRFS_SUBVOLUME`. -/
def FMT_BTRFS_SUBVOLUME : String := "btrfs_subvolume"

/-- Source `FMT_ROOT_DEVICE`. -/
def FMT_ROOT_DEVICE : String := "root_device"

/-- Source `FMT_ROOT_OPTS`. -/
def FMT_ROOT_OPTS : String := "root_opts"

/-- Source `FMT_KERNEL`. -/
def FMT_KERNEL : String := "kernel"

/-- Source `FMT_INITRAMFS`. -/
def FMT_INITRAMFS : String := "initramfs"

/-- Source `FMT_OS_NAME`. -/
def FMT_OS_NAME : String := "os_name"

/-! ## Data model -/

/-- One `(name, regex)` pair produced by the profile's
`make_format_regexes(osp.options)`.

Modelled from the spec: `make_format_regexes` lives in the missing
`boom.osprofile` module ("derive match regexes from an option template",
§6).  Its output is modelled as data carried by the profile: the
BootParams field `name`, the regex source text `exp` (used verbatim by
the source as a `del_opts` entry), and the compiled matcher `run`,
where `run w = none` means the regex does not match word `w`,
`some none` means it matches without a capture group, and
`some (some v)` means it matches capturing `v`. -/
structure OptRegex where
  name : String
  exp : String
  run : String → Option (Option String)

/-- An OS profile, as consumed read-only by `BootEntry`.

Modelled from the spec: the profile provider interface of §6 (the
`boom.osprofile` module is not part of the analysed sources): an
identifier, descriptive fields, four format-pattern strings and two
root-options templates, plus the derived option-template regex list
(see `OptRegex`). -/
structure OsProfile where
  os_id : String := ""
  os_name : String := ""
  os_short_name : String := ""
  os_version : String := ""
  os_version_id : String := ""
  title : String := ""
  kernel_pattern : String := ""
  initramfs_pattern : String := ""
  options : String := ""
  root_opts_lvm2 : String := ""
  root_opts_btrfs : String := ""
  optsRegexes : List OptRegex := []

/-- Source `BootParams`: kernel version, root device description, and option
add/delete lists, with the generation counter bumped by every property
setter. -/
structure BootParams where
  version : Option String := none
  root_device : Option String := none
  lvm_root_lv : Option String := none
  btrfs_subvol_path : Option String := none
  btrfs_subvol_id : Option String := none
  add_opts : List String := []
  del_opts : List String := []
  generation : Nat := 0
deriving DecidableEq

/-- Source `BootParams.has_btrfs`. -/
def BootParams.has_btrfs (bp : BootParams) : Bool :=
  pyTruthyO bp.btrfs_subvol_id || pyTruthyO bp.btrfs_subvol_path

/-- Source `BootParams.has_lvm2` (`lvm_root_lv is not None and len(...)`). -/
def BootParams.has_lvm2 (bp : BootParams) : Bool :=
  pyTruthyO bp.lvm_root_lv

/-- Source `BootParams.__init__`.  Arguments are `Option String` (`none` =
Python `None`); all emptiness tests are Python truthiness.  Each
property assignment bumps `generation`, mirroring the setters. -/
def bootParamsInit (version root_device lvm_root_lv btrfs_subvol_path
    btrfs_subvol_id : Option String)
    (add_opts del_opts : Option (List String)) : Except PyErr BootParams :=
  if !pyTruthyO version then .error (.valueError "version argument is required.")
  else
    let bp : BootParams := {}
    let bp := {bp with version := version, generation := bp.generation + 1}
    let bp :=
      if pyTruthyO root_device then
        {bp with root_device := root_device, generation := bp.generation + 1}
      else bp
    let bp :=
      if pyTruthyO lvm_root_lv then
        let bp :=
          if !pyTruthyO root_device then
            {bp with root_device := some (devPattern (lvm_root_lv.getD "")),
                     generation := bp.generation + 1}
          else bp
        {bp with lvm_root_lv := lvm_root_lv, generation := bp.generation + 1}
      else bp
    if pyTruthyO btrfs_subvol_path && pyTruthyO btrfs_subvol_id then
      .error (.valueError
        "Only one of btrfs_subvol_path and btrfs_subvol_id allowed.")
    else
      let bp :=
        if pyTruthyO btrfs_subvol_path then
          {bp with btrfs_subvol_path := btrfs_subvol_path,
                   generation := bp.generation + 1}
        else bp
      let bp :=
        if pyTruthyO btrfs_subvol_id then
          {bp with btrfs_subvol_id := btrfs_subvol_id,
                   generation := bp.generation + 1}
        else bp
      let bp := {bp with add_opts := add_opts.getD [],
                         generation := bp.generation + 1}
      let bp := {bp with del_opts := del_opts.getD [],
                         generation := bp.generation + 1}
      .ok bp

/-- The pure content of a `BootEntry`: its literal entry data (an
association list keyed by `BOOM_ENTRY_*` names), the non-owning attached
profile, and the owned `BootParams`.  The mutable bookkeeping fields of
the Python object live in `BootEntryState`. -/
structure BootEntry where
  entry_data : List (String × String) := []
  osp : Option OsProfile := none
  bp : Option BootParams := none

/-- Dictionary lookup in `_entry_data` (`None` when absent), as used by
`_entry_data_property` and `key in self._entry_data`. -/
def edLookup (be : BootEntry) (k : String) : Option String :=
  (be.entry_data.find? (fun p => p.1 = k)).map (fun p => p.2)

/-- Source `key in self._entry_data`. -/
def edMem (be : BootEntry) (k : String) : Bool :=
  (edLookup be k).isSome

/-- Dictionary assignment `self._entry_data[key] = value`. -/
def edSet (d : List (String × String)) (k v : String) : List (String × String) :=
  if d.any (fun p => p.1 = k) then
    d.map (fun p => if p.1 = k then (k, v) else p)
  else d ++ [(k, v)]

/-! ## Options reconciler (`BootEntry.options` local helpers) -/

/-- Source `add_opts(opts, append)`: append the extra kernel options (only when
the append list is non-empty). -/
def addOptsStr (opts : String) (append : List String) : String :=
  if append.isEmpty then opts else opts ++ " " ++ pyJoinSp append

/-- Source `del_opt(opt, drop)`: should the option token `opt` be dropped? -/
def del_opt (opt : String) (drop : List String) : Bool :=
  if opt ∈ drop then true
  else if wildcardOf opt ∈ drop then true
  else false

/-- Source `del_opts(opts, drop)`: drop every matching token from the
whitespace-split options string and re-join with single spaces. -/
def delOptsStr (opts : String) (drop : List String) : String :=
  pyJoinSp ((pySplitWs opts).filter (fun o => !del_opt o drop))

/-! ## Template engine (`BootEntry._apply_format`) and property getters

`_apply_format` reads the templated properties `root_opts`, `linux` and
`initrd`, which themselves call `_apply_format` on profile patterns; the
recursion depth (the Python call stack) is bounded by `fuel`.  Helpers
suffixed `W` receive the one-level-deeper template engine as the
function argument `af`. -/

/-- One `key_spec` table entry of `_apply_format`.  `val_fmt` models the
source's `VAL_FMT` format string (`"subvolid=%s"` etc.) as the prefix
placed before the substituted value.  `needs` is carried for fidelity
but is dead in the source: the `continue` in the `NEEDS` check loop of
`_apply_format` only continues that inner loop, so it never skips a
`key_spec`.  The source's `PRED_FN` predicate lists are built but never
evaluated by the substitution loop (`test_predicates` is unused), so
they are omitted. -/
structure KeySpec where
  be_attr : Option String := none
  bp_attr : Option String := none
  osp_attr : Option String := none
  needs : Option String := none
  val_fmt : Option String := none

/-- Source `getattr(bp, ...)` for the BootParams attributes named by the
`format_key_specs` table. -/
def bpGetAttr (bp : BootParams) (a : String) : Option String :=
  if a = "version" then bp.version
  else if a = "root_device" then bp.root_device
  else if a = "lvm_root_lv" then bp.lvm_root_lv
  else if a = "btrfs_subvol_path" then bp.btrfs_subvol_path
  else if a = "btrfs_subvol_id" then bp.btrfs_subvol_id
  else none

/-- Source `getattr(self._osp, ...)` for the profile attributes named by the
`format_key_specs` table (profile attributes are plain strings). -/
def ospGetAttr (osp : OsProfile) (a : String) : Option String :=
  if a = "root_opts_lvm2" then some osp.root_opts_lvm2
  else if a = "root_opts_btrfs" then some osp.root_opts_btrfs
  else if a = "os_name" then some osp.os_name
  else if a = "os_short_name" then some osp.os_short_name
  else if a = "os_version" then some osp.os_version
  else if a = "os_version_id" then some osp.os_version_id
  else none

/-- The `format_key_specs` table of `_apply_format`, as the dictionary
evaluates in Python: the source's dict literal binds the key
`FMT_OS_NAME` four times in a row (with specs for `os_name`,
`os_short_name`, `os_version` and `os_version_id`); Python keeps only
the last value for a repeated key, so the evaluated table maps
`FMT_OS_NAME` to the `os_version_id` spec and has no entry at all for
the other three OS-description keys. -/
def formatKeySpecs : List (String × List KeySpec) :=
  [(FMT_VERSION, [{be_attr := some "version", bp_attr := some "version"}]),
   (FMT_LVM_ROOT_LV, [{bp_attr := some "lvm_root_lv"}]),
   (FMT_LVM_ROOT_OPTS, [{osp_attr := some "root_opts_lvm2"}]),
   (FMT_BTRFS_ROOT_OPTS, [{osp_attr := some "root_opts_btrfs"}]),
   (FMT_BTRFS_SUBVOLUME,
     [{bp_attr := some "btrfs_subvol_id", needs := some "bp",
       val_fmt := some "subvolid="},
      {bp_attr := some "btrfs_subvol_path", needs := some "bp",
       val_fmt := some "subvol="}]),
   (FMT_ROOT_DEVICE, [{bp_attr := some "root_device", needs := some "bp"}]),
   (FMT_ROOT_OPTS, [{be_attr := some "root_opts", needs := some "bp"}]),
   (FMT_KERNEL, [{be_attr := some "linux", needs := some "bp"}]),
   (FMT_INITRAMFS, [{be_attr := some "initrd", needs := some "bp"}]),
   (FMT_OS_NAME, [{osp_attr := some "os_version_id"}])]

/-- Source `BootEntry.version` property: the BootParams version takes priority
unless a literal version is stored. -/
def beVersion (be : BootEntry) : Option String :=
  match be.bp with
  | some bp => if !edMem be BOOM_ENTRY_VERSION then bp.version
               else edLookup be BOOM_ENTRY_VERSION
  | none => edLookup be BOOM_ENTRY_VERSION

/-- Source `BootEntry.machine_id` property. -/
def beMachineId (be : BootEntry) : Option String :=
  edLookup be BOOM_ENTRY_MACHINE_ID

/-- Source `BootEntry.efi` property. -/
def beEfi (be : BootEntry) : Option String :=
  edLookup be BOOM_ENTRY_EFI

/-- Source `BootEntry.devicetree` property. -/
def beDevicetree (be : BootEntry) : Option String :=
  edLookup be BOOM_ENTRY_DEVICETREE

/-- Source `BootEntry.root_opts` property, with `af` the template engine. -/
def beRootOptsW (af : BootEntry → String → String) (be : BootEntry) : String :=
  match be.osp, be.bp with
  | some osp, some bp =>
    let lvm_opts := if pyTruthyO bp.lvm_root_lv then af be osp.root_opts_lvm2 else ""
    let btrfs_opts :=
      if pyTruthyO bp.btrfs_subvol_id || pyTruthyO bp.btrfs_subvol_path then
        af be osp.root_opts_btrfs
      else ""
    let spacer := if !pyEmpty lvm_opts && !pyEmpty btrfs_opts then " " else ""
    lvm_opts ++ spacer ++ btrfs_opts
  | _, _ => ""

/-- Source `BootEntry.linux` property, with `af` the template engine. -/
def beLinuxW (af : BootEntry → String → String) (be : BootEntry) : Option String :=
  match be.osp with
  | none => edLookup be BOOM_ENTRY_LINUX
  | some osp =>
    if edMem be BOOM_ENTRY_LINUX then edLookup be BOOM_ENTRY_LINUX
    else some (af be osp.kernel_pattern)

/-- Source `BootEntry.initrd` property, with `af` the template engine. -/
def beInitrdW (af : BootEntry → String → String) (be : BootEntry) : Option String :=
  match be.osp with
  | none => edLookup be BOOM_ENTRY_INITRD
  | some osp =>
    if edMem be BOOM_ENTRY_INITRD then edLookup be BOOM_ENTRY_INITRD
    else some (af be osp.initramfs_pattern)

/-- Source `getattr(self, key_spec[BE_ATTR])` for the entry attributes named by
the `format_key_specs` table. -/
def beGetAttrW (af : BootEntry → String → String) (be : BootEntry)
    (a : String) : Option String :=
  if a = "version" then beVersion be
  else if a = "root_opts" then some (beRootOptsW af be)
  else if a = "linux" then beLinuxW af be
  else if a = "initrd" then beInitrdW af be
  else none

/-- Source `get_key_attr(key_spec)`: resolve a key spec to its substitution
value, or `none` when no source is available (`have_attr` false) or the
chosen source holds `None`. -/
def getKeyAttrW (af : BootEntry → String → String) (be : BootEntry)
    (spec : KeySpec) : Option String :=
  let have_attr := (spec.bp_attr.isSome && be.bp.isSome) ||
    (spec.osp_attr.isSome && be.osp.isSome) || spec.be_attr.isSome
  if have_attr then
    let value : Option String :=
      if spec.bp_attr.isSome && be.bp.isSome then
        match be.bp with
        | some bp => bpGetAttr bp (spec.bp_attr.getD "")
        | none => none
      else if spec.osp_attr.isSome then
        match be.osp with
        | some osp => ospGetAttr osp (spec.osp_attr.getD "")
        | none => none
      else if spec.be_attr.isSome then beGetAttrW af be (spec.be_attr.getD "")
      else none
    match value with
    | none => none
    | some v => some (spec.val_fmt.getD "" ++ v)
  else none

/-- The inner `key_spec` loop of `_apply_format`: apply every resolvable
spec for one key by global string replacement. -/
def applySpecsW (af : BootEntry → String → String) (be : BootEntry)
    (key : String) : List KeySpec → String → String
  | [], fmt => fmt
  | spec :: rest, fmt =>
    match getKeyAttrW af be spec with
    | none => applySpecsW af be key rest fmt
    | some v => applySpecsW af be key rest (pyReplace fmt key v)

/-- The outer key loop of `_apply_format`, in the table's (insertion)
order; a key is skipped when its placeholder does not occur in the
format string at that point. -/
def applyKeysW (af : BootEntry → String → String) (be : BootEntry) :
    List (String × List KeySpec) → String → String
  | [], fmt => fmt
  | (nm, specs) :: rest, fmt =>
    let key := "%\x7b" ++ nm ++ "\x7d"
    if !pyContains fmt key then applyKeysW af be rest fmt
    else applyKeysW af be rest (applySpecsW af be key specs fmt)

/-- Source `BootEntry._apply_format(fmt)`.  `fuel` bounds nesting of the
template engine through the `root_opts` / `linux` / `initrd` getters; at
`fuel = 0` the format string is returned unchanged (the Python
equivalent is exhausting the interpreter stack, which no code path of
the source does). -/
def applyFormat : Nat → BootEntry → String → String
  | 0, _, fmt => fmt
  | fuel + 1, be, fmt =>
    if pyEmpty fmt then ""
    else applyKeysW (applyFormat fuel) be formatKeySpecs fmt

/-- Source `BootEntry.root_opts` property. -/
def beRootOpts (fuel : Nat) (be : BootEntry) : String :=
  beRootOptsW (applyFormat fuel) be

/-- Source `BootEntry.linux` property. -/
def beLinux (fuel : Nat) (be : BootEntry) : Option String :=
  beLinuxW (applyFormat fuel) be

/-- Source `BootEntry.initrd` property. -/
def beInitrd (fuel : Nat) (be : BootEntry) : Option String :=
  beInitrdW (applyFormat fuel) be

/-- Source `BootEntry.title` property. -/
def beTitle (fuel : Nat) (be : BootEntry) : String :=
  match edLookup be BOOM_ENTRY_TITLE with
  | some t => t
  | none =>
    match be.osp, be.bp with
    | some osp, some _ => applyFormat fuel be osp.title
    | _, _ => ""

/-- Source `BootEntry.options` property, including the add/delete
reconciliation against the attached `BootParams`. -/
def beOptions (fuel : Nat) (be : BootEntry) : String :=
  match edLookup be BOOM_ENTRY_OPTIONS with
  | some opts =>
    match be.bp with
    | some bp => delOptsStr (addOptsStr opts bp.add_opts) bp.del_opts
    | none => opts
  | none =>
    match be.osp, be.bp with
    | some osp, some bp =>
      delOptsStr (addOptsStr (applyFormat fuel be osp.options) bp.add_opts)
        bp.del_opts
    | _, _ => ""

/-! ## Serialization and identity (`BootEntry.__str`, `boot_id`) -/

/-- Source `getattr(self, KEY_MAP[k])` for each entry key, as read by the
serializer (`Option String` mirrors getters that can return `None`). -/
def attrVal (fuel : Nat) (be : BootEntry) (a : String) : Option String :=
  if a = "title" then some (beTitle fuel be)
  else if a = "machine_id" then beMachineId be
  else if a = "version" then beVersion be
  else if a = "linux" then beLinux fuel be
  else if a = "efi" then beEfi be
  else if a = "initrd" then beInitrd fuel be
  else if a = "options" then some (beOptions fuel be)
  else if a = "devicetree" then beDevicetree be
  else none

/-- Python truthiness filter of the serializer's key comprehension. -/
def attrTruthy (fuel : Nat) (be : BootEntry) (a : String) : Bool :=
  pyTruthyO (attrVal fuel be a)

/-- Source `BootEntry.__str()` with its default arguments (BLS notation, one
`<key> <value>` line per non-empty key in `ENTRY_KEYS` order, trailing
newlines stripped).  In BLS mode the `boot_id` key is never emitted, so
this is also exactly the text hashed by `__generate_boot_id`. -/
def serializeBLS (fuel : Nat) (be : BootEntry) : String :=
  let lines := ENTRY_KEYS.filterMap (fun k =>
    let a := keyAttr k
    match attrVal fuel be a with
    | none => none
    | some v =>
      if pyEmpty v then none
      else some (transformKey a ++ " " ++ v ++ "\n"))
  rstripNl (String.join lines)

/-- Source `BootEntry.__generate_boot_id()`: the SHA-1 hex digest of the UTF-8
bytes of the entry's BLS serialization (identity key excluded). -/
def generateBootId (fuel : Nat) (be : BootEntry) : String :=
  sha1Hex (utf8Encode (serializeBLS fuel be))

/-- The mutable bookkeeping of a Python `BootEntry` object around its
pure content `e`: the dirty flag `_unwritten`, the memoized
`__boot_id`, and the observed BootParams generation
`_bp_generation`. -/
structure BootEntryState where
  e : BootEntry := {}
  unwritten : Bool := false
  cachedBootId : Option String := none
  bp_generation : Nat := 0

/-- Source `BootEntry._dirty()`: clear the cached `boot_id` and mark the entry
unwritten. -/
def markDirty (s : BootEntryState) : BootEntryState :=
  {s with cachedBootId := none, unwritten := true}

/-- The first step of the `boot_id` property read: mark the entry dirty
when the attached BootParams' generation counter has advanced past the
snapshot last observed by the entry. -/
def bootIdStep1 (s : BootEntryState) : BootEntryState :=
  match s.e.bp with
  | some bp =>
    if bp.generation ≠ s.bp_generation then
      markDirty {s with bp_generation := bp.generation}
    else s
  | none => s

/-- The `boot_id` property read: detect BootParams mutation through the
generation counter, recompute the digest when the cache is
empty/invalid or the entry is dirty, and return the (possibly updated)
state alongside the value. -/
def bootIdRead (fuel : Nat) (s : BootEntryState) : String × BootEntryState :=
  let s1 := bootIdStep1 s
  match s1.cachedBootId with
  | none =>
    let bid := generateBootId fuel s1.e
    (bid, {s1 with cachedBootId := some bid})
  | some cached =>
    if pyEmpty cached || s1.unwritten then
      let bid := generateBootId fuel s1.e
      (bid, {s1 with cachedBootId := some bid})
    else (cached, s1)

/-- Cache consistency: a memoized `boot_id`, when present, is the digest
of the current content.  Every reachable state satisfies this: the cache
is only ever filled by `boot_id` itself and is cleared by `_dirty()`,
which every content mutation calls (BootParams mutation is detected via
the generation counter instead). -/
def cacheOk (fuel : Nat) (s : BootEntryState) : Prop :=
  match s.cachedBootId with
  | none => True
  | some c => c = generateBootId fuel s.e

/-! ## `BootEntry.__setitem__` -/

/-- Source `BootEntry.__setitem__(key, value)`.  String-typed keys only (the
`isinstance` type check is outside the model since keys are `String`
here).  Mirrors the source's `elif` chain: BootParams-backed keys route
through property setters when a `BootParams` is attached, `boot_id`
assignment raises `TypeError`, other known stored keys are assigned
directly, and anything else raises `KeyError`. -/
def setItem (s : BootEntryState) (key value : String) :
    Except PyErr BootEntryState :=
  let setAttr (k : String) : BootEntryState :=
    -- property setters assign the entry data key and call _dirty()
    markDirty {s with e := {s.e with entry_data := edSet s.e.entry_data k value}}
  if key = BOOM_ENTRY_VERSION ∧ s.e.bp.isSome then
    -- self.bp.version = value (BootParams setter bumps the generation)
    .ok {s with e := {s.e with bp := s.e.bp.map (fun bp =>
      {bp with version := some value, generation := bp.generation + 1})}}
  else if key = BOOM_ENTRY_LINUX ∧ s.e.bp.isSome then .ok (setAttr BOOM_ENTRY_LINUX)
  else if key = BOOM_ENTRY_INITRD ∧ s.e.bp.isSome then .ok (setAttr BOOM_ENTRY_INITRD)
  else if key = BOOM_ENTRY_OPTIONS ∧ s.e.bp.isSome then .ok (setAttr BOOM_ENTRY_OPTIONS)
  else if key = BOOM_ENTRY_DEVICETREE ∧ s.e.bp.isSome then .ok (setAttr BOOM_ENTRY_DEVICETREE)
  else if key = BOOM_ENTRY_EFI ∧ s.e.bp.isSome then .ok (setAttr BOOM_ENTRY_EFI)
  else if key = BOOM_ENTRY_BOOT_ID then
    .error (.typeError "'boot_id' property does not support assignment")
  else if edMem s.e key then
    .ok {s with e := {s.e with entry_data := edSet s.e.entry_data key value}}
  else .error (.keyError ("BootEntry key " ++ key ++ " not present."))

/-! ## `BootEntry.delete_entry` and the entry store -/

/-- The boot file system prefix.

Modelled from the spec: `get_boot_path()` lives in the missing `boom`
package root; entries live at `/boot/loader/entries` (§6, "normally
located at /boot/loader/entries"). -/
def bootPath : String := "/boot"

/-- Source `boom_entries_path()`. -/
def boomEntriesPath : String := bootPath ++ "/" ++ "loader/entries"

/-- Source `BootEntry._entry_path`: the target file path
`<machine_id>-<boot_id[0:7]>-<version>.conf`.  Reading the `boot_id`
property may update the entry's cache state, so the updated state is
returned too. -/
def entryPathState (fuel : Nat) (s : BootEntryState) :
    String × BootEntryState :=
  let mid := pyStrO (beMachineId s.e)
  let r := bootIdRead fuel s
  let ver := pyStrO (beVersion r.2.e)
  (boomEntriesPath ++ "/" ++ mid ++ "-" ++ String.mk (r.1.data.take 7) ++ "-" ++
    ver ++ ".conf", r.2)

/-- The file path component of `BootEntry._entry_path`. -/
def entryPath (fuel : Nat) (s : BootEntryState) : String :=
  (entryPathState fuel s).1

/-- The world visible to `delete_entry`: the set of on-disk entry file
paths, and the in-memory `_entries` index.  `BootEntry.__eq__` compares
`boot_id` values, so `list.remove` in `_del_entry` removes the first
entry whose `boot_id` equals the argument's; the index is therefore
modelled as the list of the loaded entries' `boot_id` values. -/
structure EntrySys where
  fs : List String := []
  entries : List String := []
deriving DecidableEq

/-- Source `BootEntry.delete_entry()`: raise `ValueError` when the entry file
does not exist, otherwise unlink it, and drop the entry from the
in-memory index only when the entry is not marked unwritten
(`_del_entry` itself raises `ValueError` when the entry is not in the
index, as Python `list.remove` does).  `unlink` I/O failure on an
existing path is outside the file-system model. -/
def deleteEntry (fuel : Nat) (w : EntrySys) (s : BootEntryState) :
    Except PyErr (EntrySys × BootEntryState) :=
  let p := entryPathState fuel s
  if p.1 ∉ w.fs then
    .error (.valueError ("Entry does not exist: " ++ p.1))
  else
    let fs' := w.fs.erase p.1
    if !p.2.unwritten then
      let r := bootIdRead fuel p.2
      if r.1 ∈ w.entries then
        .ok ({fs := fs', entries := w.entries.erase r.1}, r.2)
      else .error (.valueError "list.remove(x): x not in list")
    else .ok ({fs := fs', entries := w.entries}, p.2)

/-! ## `BootParams.from_entry` -/

/-- Source `setattr(bp, name, value)` for the field names produced by the
option-template regexes; each known field routes through its property
setter (bumping `generation`).  A name that is not a `BootParams`
property would create an unrelated Python instance attribute that
nothing reads; that case is a no-op here. -/
def setBPAttr (bp : BootParams) (name : String) (v : String) : BootParams :=
  if name = "version" then
    {bp with version := some v, generation := bp.generation + 1}
  else if name = "root_device" then
    {bp with root_device := some v, generation := bp.generation + 1}
  else if name = "lvm_root_lv" then
    {bp with lvm_root_lv := some v, generation := bp.generation + 1}
  else if name = "btrfs_subvol_path" then
    {bp with btrfs_subvol_path := some v, generation := bp.generation + 1}
  else if name = "btrfs_subvol_id" then
    {bp with btrfs_subvol_id := some v, generation := bp.generation + 1}
  else bp

/-- Source `matches[word] = True`: idempotent insertion into the matched-word
dictionary (modelled as its key list). -/
def dictInsert (m : List String) (w : String) : List String :=
  if w ∈ m then m else m ++ [w]

/-- The inner word loop of `from_entry` for one regex: scan all words,
record every matching word, update `value` from the capture group when
one is present, and assign the captured value to the named `BootParams`
field on every match. -/
def scanWords (r : OptRegex) : List String →
    List String × String × BootParams → List String × String × BootParams
  | [], st => st
  | w :: ws, st =>
    match r.run w with
    | none => scanWords r ws st
    | some cap =>
      let value := cap.getD st.2.1
      scanWords r ws (dictInsert st.1 w, value, setBPAttr st.2.2 r.name value)

/-- The outer regex loop of `from_entry`, including the `root_device`
special case (force an explicit empty value when nothing matched). -/
def scanRegexes : List OptRegex → List String →
    List String × BootParams → List String × BootParams
  | [], _, st => st
  | r :: rs, words, st =>
    let t := scanWords r words (st.1, "", st.2)
    let bp' :=
      if r.name = "root_device" && pyEmpty t.2.1 then
        setBPAttr t.2.2 "root_device" ""
      else t.2.2
    scanRegexes rs words (t.1, bp')

/-- The fixed `ignore_bp` list of `is_del`: optional boot parameters
never auto-recorded as deleted. -/
def ignoreBP : List String := ["rootflags", "rd.lvm.lv", "subvol", "subvolid"]

/-- Source `is_del(opt)`: a template option regex entry is recorded as deleted
when its name (text before `'='`) neither appears among the names of the
matched words nor is in the ignore list. -/
def isDel (o : String) (ms : List String) : Bool :=
  let matched_opts := ms.map optName
  if optName o ∉ matched_opts ∧ optName o ∉ ignoreBP then true else false

/-- Source `BootParams.from_entry(be)`.  Accessing `osp.make_format_regexes`
on an entry with no attached profile raises `AttributeError` in the
source; with an empty regex list the function returns `None`; otherwise
the scan assembles the recovered `BootParams` with `add_opts` the
deduplicated unmatched words (`list(set(...))`, modelled in
first-occurrence order) and `del_opts` the unmatched template regex
entries filtered by `is_del`. -/
def fromEntry (fuel : Nat) (be : BootEntry) : Except PyErr (Option BootParams) :=
  match be.osp with
  | none => .error (.attributeError
      "'NoneType' object has no attribute 'make_format_regexes'")
  | some osp =>
    match bootParamsInit (beVersion be) none none none none none none with
    | .error e => .error e
    | .ok bp0 =>
      let opts_regexes := osp.optsRegexes
      if opts_regexes.isEmpty then .ok none
      else
        let words := pySplitWs (beOptions fuel be)
        let t := scanRegexes opts_regexes words ([], bp0)
        let add0 := words.filter (fun o => o ∉ t.1)
        -- bp.add_opts = [...] then bp.add_opts = list(set(bp.add_opts))
        let bp1 := {t.2 with add_opts := add0, generation := t.2.generation + 1}
        let bp2 :=
          {bp1 with add_opts := add0.dedup, generation := bp1.generation + 1}
        let dels := (opts_regexes.map OptRegex.exp).filter (fun o => isDel o t.1)
        let bp3 := {bp2 with del_opts := dels, generation := bp2.generation + 1}
        .ok (some bp3)

/-! ## Concrete test fixtures

Concrete profiles, entries and worlds used by the witnesses,
counterexamples and sanity checks below. -/

/-- A profile with the four OS-description attributes populated, as a
concrete test input for the template engine. -/
def c2profile : OsProfile :=
  {os_name := "Fedora", os_short_name := "fedora",
   os_version := "26 (Workstation Edition)", os_version_id := "26"}

/-- An entry with `c2profile` attached and no `BootParams`. -/
def c2entry : BootEntry :=
  {entry_data := [], osp := some c2profile, bp := none}

/-- A profile whose options template yields no `(name, regex)` pairs. -/
def c3profile : OsProfile := {}

/-- An entry with an empty-template profile attached and no version
(no stored version key and no BootParams). -/
def c3entry : BootEntry :=
  {entry_data := [(BOOM_ENTRY_TITLE, "t"), (BOOM_ENTRY_LINUX, "/vmlinuz")],
   osp := some c3profile, bp := none}

/-- An entry like `c3entry` but with a stored version key. -/
def c3okentry : BootEntry :=
  {entry_data := [(BOOM_ENTRY_TITLE, "t"), (BOOM_ENTRY_LINUX, "/vmlinuz"),
                  (BOOM_ENTRY_VERSION, "4.1.1-100.fc24")],
   osp := some c3profile, bp := none}

/-- A concrete `root_device` option-template regex
(`root=(\S+)`-style): matches words beginning `root=` and captures the
rest. -/
def c5regex : OptRegex :=
  {name := "root_device", exp := "root=",
   run := fun w =>
     if isPreL "root=".data w.data then some (some (String.mk (w.data.drop 5)))
     else none}

/-- A profile whose options template yields exactly one
`(name, regex)` pair. -/
def c5profile : OsProfile := {optsRegexes := [c5regex]}

/-- An entry with a literal options string, a stored version, and
`c5profile` attached. -/
def c5entry : BootEntry :=
  {entry_data := [(BOOM_ENTRY_TITLE, "t"), (BOOM_ENTRY_VERSION, "4.1.1"),
                  (BOOM_ENTRY_OPTIONS, "root=/dev/sda5 ro quiet")],
   osp := some c5profile, bp := none}

/-- A minimal concrete dirty entry state. -/
def c1state : BootEntryState :=
  {e := {entry_data := [(BOOM_ENTRY_TITLE, "title 1")], osp := none, bp := none},
   unwritten := true, cachedBootId := none, bp_generation := 0}

/-- A minimal concrete dirty (unwritten) entry state for `delete`. -/
def c8state : BootEntryState :=
  {e := {entry_data := [(BOOM_ENTRY_TITLE, "t")], osp := none, bp := none},
   unwritten := true, cachedBootId := none, bp_generation := 0}

/-- A world in which `c8state`'s file exists and the entry is in the
in-memory index. -/
def c8world : EntrySys :=
  {fs := [entryPath 1 c8state], entries := [(bootIdRead 1 c8state).1]}

/-- A clean (written) variant of `c8state`. -/
def c8clean : BootEntryState :=
  {e := {entry_data := [(BOOM_ENTRY_TITLE, "t")], osp := none, bp := none},
   unwritten := false, cachedBootId := none, bp_generation := 0}

/-- A world in which `c8clean`'s file exists and the entry is
indexed. -/
def c8cleanWorld : EntrySys :=
  {fs := [entryPath 1 c8clean], entries := [(bootIdRead 1 c8clean).1]}

/-! ## Theorems -/

/-- SHA-1 sanity check against the FIPS 180 test vector for `"abc"`. -/
theorem sha1Hex_abc :
    sha1Hex (utf8Encode "abc") = "a9993e364706816aba3e25717850c26c9cd0d89d" := by
  decide

/-- SHA-1 sanity check for the empty message. -/
theorem sha1Hex_empty :
    sha1Hex [] = "da39a3ee5e6b4b0d3255bfef95601890afd80709" := by
  decide

/-- The wildcard spec is the token's name followed by `'='`. -/
theorem wildcardOf_eq (o : String) : wildcardOf o = optName o ++ "=" := rfl

/-- A wildcard spec always ends in `'='`. -/
theorem wildcardOf_last (o : String) : lastCharIs (wildcardOf o) '=' = true := by
  simp [lastCharIs, wildcardOf]

/-- C4: `BootParams` construction fails exactly when the version
argument is empty or absent, or when both Btrfs subvolume selectors are
supplied (non-empty); in the error case no `BootParams` value is
produced (the result is `Except.error`, which carries no
`BootParams`). -/
theorem bootParams_init_error_iff
    (version root_device lvm_root_lv btrfs_subvol_path btrfs_subvol_id :
      Option String) (add_opts del_opts : Option (List String)) :
    (∃ e, bootParamsInit version root_device lvm_root_lv btrfs_subvol_path
        btrfs_subvol_id add_opts del_opts = .error e) ↔
      (pyTruthyO version = false ∨
        (pyTruthyO btrfs_subvol_path = true ∧ pyTruthyO btrfs_subvol_id = true)) := by
  unfold bootParamsInit
  cases hv : pyTruthyO version <;>
    cases hp : pyTruthyO btrfs_subvol_path <;>
      cases hi : pyTruthyO btrfs_subvol_id <;>
        simp [hv, hp, hi]

/-- C9: dictionary-style assignment to the `boot_id` key always raises
`TypeError`; since the result is `Except.error`, no updated entry state
is produced and the stored data and cached `boot_id` are unchanged. -/
theorem setItem_boot_id_typeError (s : BootEntryState) (v : String) :
    setItem s BOOM_ENTRY_BOOT_ID v =
      .error (.typeError "'boot_id' property does not support assignment") := by
  unfold setItem
  rw [if_neg (fun h => absurd h.1 (by decide)),
      if_neg (fun h => absurd h.1 (by decide)),
      if_neg (fun h => absurd h.1 (by decide)),
      if_neg (fun h => absurd h.1 (by decide)),
      if_neg (fun h => absurd h.1 (by decide)),
      if_neg (fun h => absurd h.1 (by decide)),
      if_pos rfl]

/-- C6: a token is dropped exactly when some delete spec equals the full
token, or some spec is the token's name followed by `'='`; in
particular a `"name="` spec drops every token with that name, and a
spec that does not end in `'='` (such as an exact `"name=value"`) drops
only the token equal to the spec itself. -/
theorem del_opt_spec (opt : String) (drop : List String) :
    (del_opt opt drop = true ↔
      ∃ spec ∈ drop, spec = opt ∨ spec = optName opt ++ "=") ∧
    (optName opt ++ "=" ∈ drop → del_opt opt drop = true) ∧
    (∀ s, lastCharIs s '=' = false → (del_opt opt [s] = true ↔ opt = s)) := by
  refine ⟨?_, ?_, ?_⟩
  · unfold del_opt
    rw [← wildcardOf_eq]
    by_cases h1 : opt ∈ drop <;> by_cases h2 : wildcardOf opt ∈ drop <;>
      simp [h1, h2]
    · exact ⟨opt, h1, Or.inl rfl⟩
    · exact ⟨opt, h1, Or.inl rfl⟩
    · exact ⟨wildcardOf opt, h2, Or.inr (wildcardOf_eq opt)⟩
    · intro x hx
      exact ⟨fun h => h1 (h ▸ hx), fun h => h2 (h ▸ hx)⟩
  · intro h
    unfold del_opt
    rw [← wildcardOf_eq] at h
    by_cases h1 : opt ∈ drop <;> simp [h1, h]
  · intro s hs
    unfold del_opt
    constructor
    · intro h
      by_cases h1 : opt ∈ [s]
      · simpa using h1
      · rw [if_neg h1] at h
        by_cases h2 : wildcardOf opt ∈ [s]
        · exfalso
          have : wildcardOf opt = s := by simpa using h2
          rw [← this, wildcardOf_last] at hs
          exact absurd hs (by simp)
        · rw [if_neg h2] at h
          exact absurd h (by simp)
    · rintro rfl
      rw [if_pos (by simp)]

/-- Witness for C6 at a concrete token and spec list. -/
theorem del_opt_spec_witness :
    (del_opt "root=/dev/sda" ["root="] = true ↔
      ∃ spec ∈ ["root="], spec = "root=/dev/sda" ∨
        spec = optName "root=/dev/sda" ++ "=") ∧
    (optName "root=/dev/sda" ++ "=" ∈ ["root="] →
      del_opt "root=/dev/sda" ["root="] = true) ∧
    (∀ s, lastCharIs s '=' = false →
      (del_opt "root=/dev/sda" [s] = true ↔ "root=/dev/sda" = s)) :=
  del_opt_spec "root=/dev/sda" ["root="]

/-- C10: with no stored literal for the key, the templated getters are
total and default to the empty string: `title` is `""` when no profile
or no BootParams is attached, `options` is `""` unless both are
attached, and `root_opts` is `""` when no profile or no BootParams is
attached.  The getters are total Lean functions mirroring source
branches that return strings, so none of these reads can raise. -/
theorem getters_default_empty (fuel : Nat) (be : BootEntry) :
    (edLookup be BOOM_ENTRY_TITLE = none → (be.osp = none ∨ be.bp = none) →
      beTitle fuel be = "") ∧
    (edLookup be BOOM_ENTRY_OPTIONS = none → (be.osp = none ∨ be.bp = none) →
      beOptions fuel be = "") ∧
    ((be.osp = none ∨ be.bp = none) → beRootOpts fuel be = "") := by
  obtain ⟨ed, osp, bp⟩ := be
  refine ⟨fun h hc => ?_, fun h hc => ?_, fun hc => ?_⟩ <;>
    cases osp <;> cases bp <;>
      simp_all [beTitle, beOptions, beRootOpts, beRootOptsW]

/-- Witness for C10 at a concrete entry with no profile, no BootParams
and no stored keys. -/
theorem getters_default_empty_witness :
    beTitle 1 {entry_data := [], osp := none, bp := none} = "" ∧
    beOptions 1 {entry_data := [], osp := none, bp := none} = "" ∧
    beRootOpts 1 {entry_data := [], osp := none, bp := none} = "" :=
  let t := getters_default_empty 1 {entry_data := [], osp := none, bp := none}
  ⟨t.1 rfl (Or.inl rfl), t.2.1 rfl (Or.inl rfl), t.2.2 (Or.inl rfl)⟩

/-- C2 (code bug): on a format string containing all four OS-description
placeholders, `_apply_format` substitutes the profile's *version id*
for the `os_name` placeholder and leaves the short-name, version and
version-id placeholders verbatim, because the `format_key_specs` dict
literal repeats the `FMT_OS_NAME` key for all four specs (the last
binding wins), contradicting the claim, the spec, and the source's own
docstring (`%\x7bos_name\x7d` "The OS Profile name", etc.). -/
theorem apply_format_os_keys_bug :
    applyFormat 3 c2entry
        "%\x7bos_name\x7d %\x7bos_short_name\x7d %\x7bos_version\x7d %\x7bos_version_id\x7d" =
      "26 %\x7bos_short_name\x7d %\x7bos_version\x7d %\x7bos_version_id\x7d" := by
  decide

/-- C3 counterexample: `from_entry` on an entry whose attached profile
yields no option-template pairs, but whose version is absent, raises
`ValueError` from `BootParams(version)` before the empty-template check
is reached — so "returns a null result and raises no exception" does
not hold for every such entry. -/
theorem from_entry_no_version_raises :
    fromEntry 1 c3entry = .error (.valueError "version argument is required.") := rfl

/-- Source `BootParams.__init__` with a truthy version and no other arguments
succeeds, with the version stored and three generation bumps. -/
theorem bootParamsInit_ok_simple (v : Option String) (h : pyTruthyO v = true) :
    bootParamsInit v none none none none none none =
      .ok {version := v, add_opts := [], del_opts := [], generation := 3} := by
  simp [bootParamsInit, h, show pyTruthyO none = false from rfl]

/-- C3 amended: for every BootEntry with a non-empty version whose
attached profile's options template yields no `(name, regex)` pairs,
`BootParams.from_entry` returns a null result (`none`) and raises no
exception. -/
theorem from_entry_empty_template_none (fuel : Nat) (be : BootEntry)
    (osp : OsProfile) (h1 : be.osp = some osp)
    (h2 : pyTruthyO (beVersion be) = true)
    (h3 : osp.optsRegexes.isEmpty = true) :
    fromEntry fuel be = .ok none := by
  unfold fromEntry
  rw [h1, bootParamsInit_ok_simple _ h2]
  simp [h3]

/-- Witness for the amended C3 at a concrete entry. -/
theorem from_entry_empty_template_none_witness :
    fromEntry 1 c3okentry = .ok none :=
  from_entry_empty_template_none 1 c3okentry c3profile rfl (by decide) rfl

/-- Every word produced by the split worker is non-empty and free of
whitespace, provided the accumulator is. -/
theorem wordsAux_sound (l : List Char) :
    ∀ acc, (∀ c ∈ acc, isPySpace c = false) →
      ∀ w ∈ wordsAux l acc, w ≠ [] ∧ ∀ c ∈ w, isPySpace c = false := by
  induction l with
  | nil =>
    intro acc hacc w hw
    unfold wordsAux at hw
    by_cases ha : acc.isEmpty
    · rw [if_pos ha] at hw
      simp at hw
    · rw [if_neg ha] at hw
      have hw' : w = acc.reverse := by simpa using hw
      subst hw'
      refine ⟨by simpa using ha, fun c hc => hacc c (by simpa using hc)⟩
  | cons c rest ih =>
    intro acc hacc w hw
    unfold wordsAux at hw
    by_cases hc : isPySpace c
    · rw [if_pos hc] at hw
      by_cases ha : acc.isEmpty
      · rw [if_pos ha] at hw
        exact ih [] (by simp) w hw
      · rw [if_neg ha] at hw
        rcases List.mem_cons.1 hw with rfl | hw'
        · refine ⟨by simpa using ha, fun x hx => hacc x (by simpa using hx)⟩
        · exact ih [] (by simp) w hw'
    · rw [if_neg hc] at hw
      refine ih (c :: acc) ?_ w hw
      intro x hx
      rcases List.mem_cons.1 hx with rfl | hx'
      · simpa using hc
      · exact hacc x hx'

/-- Feeding a whitespace-free word into the split worker moves it into
the accumulator. -/
theorem wordsAux_word (w : List Char) (hw : ∀ c ∈ w, isPySpace c = false) :
    ∀ l acc, wordsAux (w ++ l) acc = wordsAux l (w.reverse ++ acc) := by
  induction w with
  | nil => intro l acc; simp [wordsAux]
  | cons c w' ih =>
    intro l acc
    have hc : isPySpace c = false := hw c (by simp)
    have step : wordsAux (c :: (w' ++ l)) acc = wordsAux (w' ++ l) (c :: acc) := by
      simp only [wordsAux, hc]
      simp
    show wordsAux (c :: w' ++ l) acc = _
    rw [List.cons_append, step,
        ih (fun x hx => hw x (List.mem_cons_of_mem _ hx)) l (c :: acc)]
    simp

/-- Splitting the space-joined list of non-empty whitespace-free words
recovers the word list. -/
theorem splitJoin (ws : List (List Char))
    (h : ∀ w ∈ ws, w ≠ [] ∧ ∀ c ∈ w, isPySpace c = false) :
    wordsAux (joinSpL ws) [] = ws := by
  induction ws with
  | nil => simp [joinSpL, wordsAux]
  | cons w ws' ih =>
    obtain ⟨hw, hwf⟩ := h w (by simp)
    cases ws' with
    | nil =>
      show wordsAux (joinSpL [w]) [] = [w]
      have : joinSpL [w] = w ++ [] := by simp [joinSpL]
      rw [this, wordsAux_word w hwf [] []]
      unfold wordsAux
      rw [if_neg (by simpa using hw)]
      simp
    | cons w2 ws'' =>
      show wordsAux (w ++ ' ' :: joinSpL (w2 :: ws'')) [] = _
      rw [wordsAux_word w hwf]
      unfold wordsAux
      rw [if_pos (by decide), if_neg (by simpa using hw)]
      rw [ih (fun x hx => h x (List.mem_cons_of_mem _ hx))]
      simp

/-- Every word of a Python whitespace split is non-empty and
whitespace-free. -/
theorem pySplitWs_sound (s : String) :
    ∀ w ∈ pySplitWs s, w.data ≠ [] ∧ ∀ c ∈ w.data, isPySpace c = false := by
  intro w hw
  unfold pySplitWs at hw
  rcases List.mem_map.1 hw with ⟨lw, hlw, rfl⟩
  exact wordsAux_sound s.data [] (by simp) lw hlw

/-- Splitting the space-join of non-empty whitespace-free strings
recovers the string list. -/
theorem pySplit_pyJoin (ws : List String)
    (h : ∀ w ∈ ws, w.data ≠ [] ∧ ∀ c ∈ w.data, isPySpace c = false) :
    pySplitWs (pyJoinSp ws) = ws := by
  unfold pySplitWs pyJoinSp
  rw [show (String.mk (joinSpL (ws.map String.data))).data =
        joinSpL (ws.map String.data) from rfl]
  rw [splitJoin (ws.map String.data) ?_]
  · rw [List.map_map]
    rw [show (String.mk ∘ String.data) = id from funext fun s => rfl, List.map_id]
  · intro w hw
    rcases List.mem_map.1 hw with ⟨x, hx, rfl⟩
    exact h x hx

/-- C7: the options deletion step is idempotent — deleting the same
spec list twice yields the same string as deleting it once. -/
theorem delOpts_idem (opts : String) (drop : List String) :
    delOptsStr (delOptsStr opts drop) drop = delOptsStr opts drop := by
  unfold delOptsStr
  rw [pySplit_pyJoin ((pySplitWs opts).filter (fun o => !del_opt o drop)) ?_]
  · rw [List.filter_filter]
    simp
  · intro w hw
    exact pySplitWs_sound opts w (List.mem_filter.1 hw).1

/-- Membership in the matched-word dictionary after an insertion. -/
theorem dictInsert_mem (m : List String) (w x : String) :
    x ∈ dictInsert m w ↔ x ∈ m ∨ x = w := by
  unfold dictInsert
  by_cases h : w ∈ m
  · rw [if_pos h]
    constructor
    · exact Or.inl
    · rintro (hx | rfl) <;> assumption
  · rw [if_neg h]
    simp

/-- After scanning one regex over a word list, the matched-word
dictionary contains exactly the initial keys plus the words the regex
matches. -/
theorem scanWords_mem (r : OptRegex) (ws : List String) :
    ∀ st x, x ∈ (scanWords r ws st).1 ↔
      x ∈ st.1 ∨ (x ∈ ws ∧ (r.run x).isSome = true) := by
  induction ws with
  | nil => intro st x; simp [scanWords]
  | cons w ws' ih =>
    intro st x
    unfold scanWords
    cases hr : r.run w with
    | none =>
      rw [ih]
      constructor
      · rintro (h | ⟨h, hs⟩)
        · exact Or.inl h
        · exact Or.inr ⟨List.mem_cons_of_mem _ h, hs⟩
      · rintro (h | ⟨hmem, hs⟩)
        · exact Or.inl h
        · rcases List.mem_cons.1 hmem with rfl | h2
          · rw [hr] at hs; simp at hs
          · exact Or.inr ⟨h2, hs⟩
    | some cap =>
      rw [ih, dictInsert_mem]
      constructor
      · rintro ((h | rfl) | ⟨h, hs⟩)
        · exact Or.inl h
        · exact Or.inr ⟨List.mem_cons_self _ _, by simp [hr]⟩
        · exact Or.inr ⟨List.mem_cons_of_mem _ h, hs⟩
      · rintro (h | ⟨hmem, hs⟩)
        · exact Or.inl (Or.inl h)
        · rcases List.mem_cons.1 hmem with rfl | h2
          · exact Or.inl (Or.inr rfl)
          · exact Or.inr ⟨h2, hs⟩

/-- After the full regex scan, the matched-word dictionary contains
exactly the initial keys plus the words matched by some regex. -/
theorem scanRegexes_mem (rs : List OptRegex) (words : List String) :
    ∀ st x, x ∈ (scanRegexes rs words st).1 ↔
      x ∈ st.1 ∨ (x ∈ words ∧ ∃ r ∈ rs, (r.run x).isSome = true) := by
  induction rs with
  | nil => intro st x; simp [scanRegexes]
  | cons r rs' ih =>
    intro st x
    unfold scanRegexes
    rw [ih, scanWords_mem]
    constructor
    · rintro ((h | ⟨hm, hs⟩) | ⟨hm, r', hr', hs⟩)
      · exact Or.inl h
      · exact Or.inr ⟨hm, r, List.mem_cons_self _ _, hs⟩
      · exact Or.inr ⟨hm, r', List.mem_cons_of_mem _ hr', hs⟩
    · rintro (h | ⟨hm, r', hr', hs⟩)
      · exact Or.inl (Or.inl h)
      · rcases List.mem_cons.1 hr' with rfl | h2
        · exact Or.inl (Or.inr ⟨hm, hs⟩)
        · exact Or.inr ⟨hm, r', h2, hs⟩

/-- C5: on an entry whose profile's options template yields at least one
`(name, regex)` pair (and whose version is non-empty, so construction
of the recovered `BootParams` succeeds), `from_entry` returns a
`BootParams` whose `add_opts` is the deduplicated collection of the
whitespace-separated words of the entry's options string not matched by
any template regex, and whose `del_opts` is exactly the list of
template regex entries whose name (text before `'='`) appears among
neither the matched words' names nor the fixed ignore list
`rootflags`, `rd.lvm.lv`, `subvol`, `subvolid`. -/
theorem from_entry_add_del_opts (fuel : Nat) (be : BootEntry)
    (osp : OsProfile) (h1 : be.osp = some osp)
    (h2 : pyTruthyO (beVersion be) = true)
    (h3 : osp.optsRegexes.isEmpty = false) :
    ∃ bp, fromEntry fuel be = .ok (some bp) ∧
      bp.add_opts.Nodup ∧
      (∀ o, o ∈ bp.add_opts ↔
        o ∈ pySplitWs (beOptions fuel be) ∧
          ¬∃ r ∈ osp.optsRegexes, (r.run o).isSome = true) ∧
      bp.del_opts = (osp.optsRegexes.map OptRegex.exp).filter (fun o =>
        !((pySplitWs (beOptions fuel be)).any (fun w =>
            (osp.optsRegexes.any (fun r => (r.run w).isSome)) &&
              (optName w == optName o))) &&
          !(ignoreBP.contains (optName o))) := by
  unfold fromEntry
  rw [h1, bootParamsInit_ok_simple _ h2]
  simp only [h3]
  rw [if_neg (by simp)]
  refine ⟨_, rfl, ?_, ?_, ?_⟩
  · exact List.nodup_dedup _
  · intro o
    rw [List.mem_dedup, List.mem_filter]
    simp only [decide_eq_true_eq]
    rw [scanRegexes_mem]
    simp only [List.not_mem_nil, false_or]
    constructor
    · rintro ⟨hw, hn⟩
      exact ⟨hw, fun hex => hn ⟨hw, hex⟩⟩
    · rintro ⟨hw, hn⟩
      exact ⟨hw, fun h => hn h.2⟩
  · apply List.filter_congr
    intro o _
    have hmatched : ∀ x, x ∈ (scanRegexes osp.optsRegexes
        (pySplitWs (beOptions fuel be))
        ([], {version := beVersion be, add_opts := [], del_opts := [],
              generation := 3})).1 ↔
        x ∈ pySplitWs (beOptions fuel be) ∧
          ∃ r ∈ osp.optsRegexes, (r.run x).isSome = true := by
      intro x
      rw [scanRegexes_mem]
      simp
    unfold isDel
    by_cases hig : optName o ∈ ignoreBP
    · rw [if_neg (fun h => h.2 hig)]
      have hb : ignoreBP.contains (optName o) = true :=
        List.elem_eq_true_of_mem hig
      rw [hb]
      simp
    · have hcon : ignoreBP.contains (optName o) = false :=
        Bool.eq_false_iff.2 (fun hc => hig (List.elem_iff.1 hc))
      by_cases hm : optName o ∈ (scanRegexes osp.optsRegexes
          (pySplitWs (beOptions fuel be))
          ([], {version := beVersion be, add_opts := [], del_opts := [],
                generation := 3})).1.map optName
      · rw [if_neg (fun h => h.1 hm)]
        rcases List.mem_map.1 hm with ⟨w, hw, hwn⟩
        rcases (hmatched w).1 hw with ⟨hwords, r', hr', hs⟩
        have hany : (pySplitWs (beOptions fuel be)).any (fun w =>
            (osp.optsRegexes.any (fun r => (r.run w).isSome)) &&
              (optName w == optName o)) = true := by
          rw [List.any_eq_true]
          exact ⟨w, hwords, by
            rw [Bool.and_eq_true, List.any_eq_true]
            exact ⟨⟨r', hr', hs⟩, by simpa using hwn⟩⟩
        rw [hany]
        simp
      · rw [if_pos ⟨hm, hig⟩]
        have hany : (pySplitWs (beOptions fuel be)).any (fun w =>
            (osp.optsRegexes.any (fun r => (r.run w).isSome)) &&
              (optName w == optName o)) = false := by
          rw [← Bool.not_eq_true, List.any_eq_true]
          rintro ⟨w, hwords, hb⟩
          rw [Bool.and_eq_true, List.any_eq_true] at hb
          obtain ⟨⟨r', hr', hs⟩, hbeq⟩ := hb
          exact hm (List.mem_map.2 ⟨w, (hmatched w).2 ⟨hwords, r', hr', hs⟩,
            by simpa using hbeq⟩)
        rw [hany, hcon]
        simp

/-- Witness for C5 at a concrete entry and profile. -/
theorem from_entry_add_del_opts_witness :
    ∃ bp, fromEntry 1 c5entry = .ok (some bp) ∧
      bp.add_opts.Nodup ∧
      (∀ o, o ∈ bp.add_opts ↔
        o ∈ pySplitWs (beOptions 1 c5entry) ∧
          ¬∃ r ∈ c5profile.optsRegexes, (r.run o).isSome = true) ∧
      bp.del_opts = (c5profile.optsRegexes.map OptRegex.exp).filter (fun o =>
        !((pySplitWs (beOptions 1 c5entry)).any (fun w =>
            (c5profile.optsRegexes.any (fun r => (r.run w).isSome)) &&
              (optName w == optName o))) &&
          !(ignoreBP.contains (optName o))) :=
  from_entry_add_del_opts 1 c5entry c5profile rfl (by decide) rfl

/-- Each hexadecimal digit character is in the digit list. -/
theorem hexChar_mem (k : Nat) (h : k < 16) : hexChar k ∈ hexDigits :=
  List.mem_map.2 ⟨k, List.mem_range.2 h, rfl⟩

/-- Fixed-width hexadecimal rendering has the requested width. -/
theorem toHexFixed_length (d : Nat) : ∀ n, (toHexFixed d n).length = d := by
  induction d with
  | zero => intro n; rfl
  | succ d ih => intro n; simp [toHexFixed, ih]

/-- Fixed-width hexadecimal rendering produces only hex digits. -/
theorem toHexFixed_mem (d : Nat) : ∀ n c, c ∈ toHexFixed d n → c ∈ hexDigits := by
  induction d with
  | zero => intro n c hc; simp [toHexFixed] at hc
  | succ d ih =>
    intro n c hc
    rcases List.mem_append.1 hc with h | h
    · exact ih _ c h
    · rw [List.mem_singleton.1 h]
      exact hexChar_mem _ (Nat.mod_lt _ (by norm_num))

/-- A SHA-1 hex digest has 40 characters. -/
theorem sha1Hex_length (m : List Nat) : (sha1Hex m).data.length = 40 := by
  show (((sha1Digest m).map (toHexFixed 8)).flatten).length = 40
  unfold sha1Digest
  simp [toHexFixed_length]

/-- A SHA-1 hex digest consists only of hex digit characters. -/
theorem sha1Hex_mem (m : List Nat) : ∀ c ∈ (sha1Hex m).data, c ∈ hexDigits := by
  intro c hc
  have hc' : c ∈ ((sha1Digest m).map (toHexFixed 8)).flatten := hc
  rcases List.mem_flatten.1 hc' with ⟨l, hl, hcl⟩
  rcases List.mem_map.1 hl with ⟨n, _, rfl⟩
  exact toHexFixed_mem 8 n c hcl

/-- A SHA-1 hex digest is never the empty (falsy) string. -/
theorem pyEmpty_sha1Hex (m : List Nat) : pyEmpty (sha1Hex m) = false := by
  have h := sha1Hex_length m
  unfold pyEmpty
  cases hd : (sha1Hex m).data
  · rw [hd] at h; simp at h
  · simp

/-- The dirty-detection step never changes the entry's content. -/
theorem bootIdStep1_e (s : BootEntryState) : (bootIdStep1 s).e = s.e := by
  unfold bootIdStep1 markDirty
  cases hbp : s.e.bp
  · rfl
  · dsimp only
    split_ifs <;> rfl

/-- The dirty-detection step preserves cache consistency (marking dirty
clears the cache). -/
theorem bootIdStep1_cacheOk (fuel : Nat) (s : BootEntryState)
    (h : cacheOk fuel s) : cacheOk fuel (bootIdStep1 s) := by
  unfold bootIdStep1 markDirty
  cases hbp : s.e.bp
  · exact h
  · dsimp only
    split_ifs
    · exact trivial
    · exact h

/-- The `boot_id` read never changes the entry's content. -/
theorem bootIdRead_e (fuel : Nat) (s : BootEntryState) :
    (bootIdRead fuel s).2.e = s.e := by
  have he := bootIdStep1_e s
  cases hc : (bootIdStep1 s).cachedBootId with
  | none =>
    simp only [bootIdRead, hc]
    exact he
  | some cached =>
    simp only [bootIdRead, hc]
    split
    · exact he
    · exact he

/-- On a cache-consistent state, the `boot_id` read returns the digest
of the current content. -/
theorem bootIdRead_val (fuel : Nat) (s : BootEntryState) (h : cacheOk fuel s) :
    (bootIdRead fuel s).1 = generateBootId fuel s.e := by
  have he := bootIdStep1_e s
  have hok := bootIdStep1_cacheOk fuel s h
  cases hc : (bootIdStep1 s).cachedBootId with
  | none =>
    simp only [bootIdRead, hc]
    rw [he]
  | some cached =>
    simp only [cacheOk, hc] at hok
    simp only [bootIdRead, hc]
    split
    · rw [he]
    · rw [hok, he]

/-- The `boot_id` read preserves cache consistency. -/
theorem bootIdRead_cacheOk (fuel : Nat) (s : BootEntryState)
    (h : cacheOk fuel s) : cacheOk fuel (bootIdRead fuel s).2 := by
  have hok := bootIdStep1_cacheOk fuel s h
  cases hc : (bootIdStep1 s).cachedBootId with
  | none =>
    simp only [bootIdRead, hc]
    exact rfl
  | some cached =>
    simp only [bootIdRead, hc]
    split
    · exact rfl
    · simpa only [cacheOk, hc] using hok

/-- Reading `boot_id` twice on an unmutated entry returns the same
value. -/
theorem bootIdRead_idem (fuel : Nat) (s : BootEntryState)
    (h : cacheOk fuel s) :
    (bootIdRead fuel (bootIdRead fuel s).2).1 = (bootIdRead fuel s).1 := by
  rw [bootIdRead_val fuel _ (bootIdRead_cacheOk fuel s h), bootIdRead_e,
      bootIdRead_val fuel s h]

/-- C1: on a cache-consistent entry state (which all reachable states
are), reading `boot_id` yields exactly the SHA-1 hex digest of the
UTF-8 bytes of the entry's canonical BLS serialization with the
identity key excluded (`serializeBLS`: keys in `ENTRY_KEYS` priority
order, a key emitted only when its literal/templated value is
non-empty); the digest has 40 characters, all lowercase hex digits;
and a repeated read on the unmutated entry returns the same value. -/
theorem boot_id_spec (fuel : Nat) (s : BootEntryState) (h : cacheOk fuel s) :
    (bootIdRead fuel s).1 = sha1Hex (utf8Encode (serializeBLS fuel s.e)) ∧
    (bootIdRead fuel s).1.data.length = 40 ∧
    (∀ c ∈ (bootIdRead fuel s).1.data, c ∈ hexDigits) ∧
    (bootIdRead fuel (bootIdRead fuel s).2).1 = (bootIdRead fuel s).1 := by
  have hv := bootIdRead_val fuel s h
  refine ⟨hv, ?_, ?_, bootIdRead_idem fuel s h⟩
  · rw [hv]; exact sha1Hex_length _
  · rw [hv]; exact sha1Hex_mem _

/-- Witness for C1 at a concrete entry state. -/
theorem boot_id_spec_witness :
    cacheOk 1 c1state ∧
    ((bootIdRead 1 c1state).1 =
        sha1Hex (utf8Encode (serializeBLS 1 c1state.e)) ∧
      (bootIdRead 1 c1state).1.data.length = 40 ∧
      (∀ c ∈ (bootIdRead 1 c1state).1.data, c ∈ hexDigits) ∧
      (bootIdRead 1 (bootIdRead 1 c1state).2).1 = (bootIdRead 1 c1state).1) :=
  ⟨True.intro, boot_id_spec 1 c1state True.intro⟩

/-- Sanity: the serializer emits the BLS line for the single stored key
of `c1state`. -/
theorem serializeBLS_example : serializeBLS 1 c1state.e = "title title 1" := by
  decide

/-- Sanity: the generated `boot_id` of `c1state` matches the digest
computed by Python `hashlib.sha1` on the same serialization. -/
theorem boot_id_example :
    (bootIdRead 1 c1state).1 = "6dc3fad36a4eb9b32832cdebb8ba5155408cdc5d" := by
  decide

/-- C8 amended: `delete_entry` raises `ValueError` (an error kind
distinct from I/O `OSError`) when the entry file does not exist,
returning no new state (so the world is unchanged); when the file
exists it is removed from the file system; and the entry is removed
from the in-memory index only when it is not marked unwritten after the
path computation — a dirty entry's file is unlinked but the entry stays
in the index. -/
theorem delete_entry_spec (fuel : Nat) (w : EntrySys) (s : BootEntryState) :
    (entryPath fuel s ∉ w.fs →
      deleteEntry fuel w s =
        .error (.valueError ("Entry does not exist: " ++ entryPath fuel s))) ∧
    (entryPath fuel s ∈ w.fs → w.fs.Nodup →
      ∀ r, deleteEntry fuel w s = .ok r → entryPath fuel s ∉ r.1.fs) ∧
    (entryPath fuel s ∈ w.fs → (entryPathState fuel s).2.unwritten = true →
      deleteEntry fuel w s =
        .ok ({fs := w.fs.erase (entryPath fuel s), entries := w.entries},
             (entryPathState fuel s).2)) ∧
    (entryPath fuel s ∈ w.fs → (entryPathState fuel s).2.unwritten = false →
      (bootIdRead fuel (entryPathState fuel s).2).1 ∈ w.entries →
      deleteEntry fuel w s =
        .ok ({fs := w.fs.erase (entryPath fuel s),
              entries :=
                w.entries.erase (bootIdRead fuel (entryPathState fuel s).2).1},
             (bootIdRead fuel (entryPathState fuel s).2).2)) := by
  unfold entryPath
  refine ⟨?_, ?_, ?_, ?_⟩
  · intro hmem
    simp only [deleteEntry]
    rw [if_pos hmem]
  · intro hmem hnd r hr
    simp only [deleteEntry] at hr
    rw [if_neg (not_not_intro hmem)] at hr
    split_ifs at hr
    · rw [Except.ok.injEq] at hr
      rw [← hr]
      dsimp only
      intro habs
      exact ((List.Nodup.mem_erase_iff hnd).1 habs).1 rfl
    · rw [Except.ok.injEq] at hr
      rw [← hr]
      dsimp only
      intro habs
      exact ((List.Nodup.mem_erase_iff hnd).1 habs).1 rfl
  · intro hmem hunw
    simp only [deleteEntry]
    rw [if_neg (not_not_intro hmem), if_neg (by simp [hunw])]
  · intro hmem hunw hbid
    simp only [deleteEntry]
    rw [if_neg (not_not_intro hmem), if_pos (by simp [hunw]), if_pos hbid]

/-- C8 counterexample: deleting the on-disk file of a dirty
(`unwritten`) entry succeeds — the file is removed — but the entry is
NOT removed from the in-memory index (`_del_entry` is guarded by
`if not self._unwritten`), refuting "always removes the entry from the
in-memory entry index".  Such a state is reachable: write an entry,
then assign one of its fields its current value (the entry is marked
dirty but its serialization, `boot_id`, and file path are
unchanged). -/
theorem delete_entry_keeps_dirty_entry :
    deleteEntry 1 c8world c8state =
      .ok ({fs := [], entries := [(bootIdRead 1 c8state).1]},
           (entryPathState 1 c8state).2) := by
  unfold deleteEntry
  rw [if_neg (not_not_intro (by decide : (entryPathState 1 c8state).1 ∈ c8world.fs))]
  rw [if_neg (by decide)]
  have h1 : c8world.fs.erase (entryPathState 1 c8state).1 = [] := by decide
  rw [h1]
  rfl

/-- Witness for the amended C8 at a concrete clean entry: the file and
the index entry are both removed. -/
theorem delete_entry_spec_witness :
    deleteEntry 1 c8cleanWorld c8clean =
      .ok ({fs := c8cleanWorld.fs.erase (entryPath 1 c8clean),
            entries := c8cleanWorld.entries.erase
              (bootIdRead 1 (entryPathState 1 c8clean).2).1},
           (bootIdRead 1 (entryPathState 1 c8clean).2).2) :=
  (delete_entry_spec 1 c8cleanWorld c8clean).2.2.2 (by decide) (by decide)
    (by decide)

end Boom
